import Mathlib

/-!
Verification development for the marve measurement-extraction engine
(`Measurements.py`, `classes.py`, `grobid.py`).  The Python source is
shallowly embedded: dictionaries become association lists with
insert-or-overwrite update, Python's substring test `a in b` becomes an
executable character-list scan, the `int`/`str` distinction that matters
for `==`/`in` is kept via an explicit tagged value type, and the one
genuinely recursive routine (`_get_cousin`) is given a fuel parameter,
`none` marking exhaustion of every finite recursion budget.
-/

namespace Marve

/-! ### Python dictionary and string semantics -/

/-- Python dict assignment `m[k] = v`: overwrite the entry in place when the
key exists, append otherwise. -/
def pyDictSet {K V : Type} [DecidableEq K] : List (K × V) → K → V → List (K × V)
  | [], k, v => [(k, v)]
  | p :: ps, k, v => if p.1 = k then (k, v) :: ps else p :: pyDictSet ps k v

/-- Python dict lookup `m[k]` / `m.get(k)`: the value stored for `k`, if any. -/
def pyDictGet {K V : Type} [DecidableEq K] : List (K × V) → K → Option V
  | [], _ => none
  | p :: ps, k => if p.1 = k then some p.2 else pyDictGet ps k

/-- Does the character list start with the given pattern? -/
def charsStartWith : List Char → List Char → Bool
  | [], _ => true
  | _ :: _, [] => false
  | p :: ps, c :: cs => p == c && charsStartWith ps cs

/-- Does the character list contain the pattern as a contiguous run? -/
def charsContain (pat : List Char) : List Char → Bool
  | [] => charsStartWith pat []
  | c :: cs => charsStartWith pat (c :: cs) || charsContain pat cs

/-- Python's substring test `pat in s` on strings. -/
def pyIn (pat s : String) : Bool :=
  charsContain pat.toList s.toList

/-- Python's `set(...)` applied to a word list, modelled as duplicate removal
keeping first occurrences (CPython set iteration order is arbitrary; a fixed
deterministic order is chosen for the embedding). -/
def pySetL (l : List String) : List String :=
  l.foldl (fun acc w => if acc.contains w then acc else acc ++ [w]) []

/-- A Python value that is either an `int` or a `str`; the source mixes the two
inside `tokenIndices` membership tests, where cross-type `==` is `False`. -/
inductive PyV where
  | vint (n : Int)
  | vstr (s : String)
deriving DecidableEq

/-- Python `==` between the modelled value kinds: `int == str` is `False`. -/
def pyEq : PyV → PyV → Bool
  | .vint a, .vint b => a == b
  | .vstr a, .vstr b => a == b
  | _, _ => false

/-- Python `str(v)`. -/
def pyvStr : PyV → String
  | .vint n => toString n
  | .vstr s => s

/-- `set`-dedup over `PyV` lists (used for `list(set(tokenIndices))`). -/
def pySetV (l : List PyV) : List PyV :=
  l.foldl (fun acc w => if acc.contains w then acc else acc ++ [w]) []

/-! ### Token store (`classes.Annotations`) -/

/-- One CoreNLP token as consumed by `Annotations.__init__`.  `word` and
`originalText` are distinct fields in the CoreNLP payload: `index_lookup` is
keyed on `word` while `lookup[i]["word"]` stores `originalText`. -/
structure Token where
  index : Nat
  word : String
  originalText : String
  lemmaStr : String
  pos : String
  characterOffsetBegin : Int
  characterOffsetEnd : Int
  ner : String
  after : String
deriving DecidableEq

/-- The per-index record stored in `Annotations.lookup`. -/
structure TokInfo where
  word : String
  lemmaStr : String
  pos : String
  start : Int
  endPos : Int
  ner : String
  after : String
deriving DecidableEq

/-- Stand-in record returned where the Python code would raise `KeyError`.
The engine's contract (spec §4.5) makes such lookups unreachable; no claim
exercises them. -/
def TokInfo.missing : TokInfo :=
  { word := "", lemmaStr := "", pos := "", start := 0, endPos := 0, ner := "", after := "" }

/-- The lookup tables built by `Annotations.__init__`. -/
structure Ann where
  lookup : List (Nat × TokInfo)
  tokStart : List (Int × Nat)
  tokEnd : List (Int × Nat)
  indexLookup : List (String × Nat)
deriving DecidableEq

/-- The body of the `Annotations.__init__` token loop: record one token in
every lookup table.  Offset keys are relative to the first token's start
offset (`base`). -/
def Ann.step (base : Int) (a : Ann) (f : Token) : Ann :=
  { lookup := pyDictSet a.lookup f.index
      { word := f.originalText, lemmaStr := f.lemmaStr, pos := f.pos,
        start := f.characterOffsetBegin, endPos := f.characterOffsetEnd,
        ner := f.ner, after := f.after },
    tokStart := pyDictSet a.tokStart (f.characterOffsetBegin - base) f.index,
    tokEnd := pyDictSet a.tokEnd (f.characterOffsetEnd - base) f.index,
    indexLookup := pyDictSet a.indexLookup f.word f.index }

/-- `Annotations.__init__`: build the index/word/offset lookups from the token
list.  Index `0` is pre-seeded with an empty sentinel record (the Python code
stores only `pos`/`word` for it; the remaining fields it never reads there are
zeroed). -/
def Ann.ofTokens (toks : List Token) : Ann :=
  let base : Int := match toks.head? with
    | some f => f.characterOffsetBegin
    | none => 0
  toks.foldl (Ann.step base)
    { lookup := [(0, TokInfo.missing)], tokStart := [], tokEnd := [], indexLookup := [] }

/-- `A.lookup[i]["word"]`. -/
def annWord (a : Ann) (i : Nat) : String :=
  ((pyDictGet a.lookup i).getD TokInfo.missing).word

/-- `A.lookup[i]["pos"]`. -/
def annPos (a : Ann) (i : Nat) : String :=
  ((pyDictGet a.lookup i).getD TokInfo.missing).pos

/-- `A.index_lookup[w]` (raises `KeyError` in Python when absent; the engine
only queries words that were seen, so the default is unreachable). -/
def idxLookup (a : Ann) (w : String) : Nat :=
  (pyDictGet a.indexLookup w).getD 0

/-! ### Sentence graph (`_build_graph`) -/

/-- One CoreNLP dependency record. -/
structure Dep where
  governor : Nat
  dependent : Nat
  governorGloss : String
  dependentGloss : String
  dep : String
deriving DecidableEq

/-- Node attributes stored by `G.add_node(idx, word=..., pos=...)`. -/
structure NodeAttr where
  word : String
  pos : String
deriving DecidableEq

/-- One undirected edge with its `dep` label.  networkx node ids are the
decimal strings of token indices; the canonical numeric form is kept. -/
structure Edge where
  a : Nat
  b : Nat
  dep : String
deriving DecidableEq

/-- The per-sentence networkx graph: node-attribute dict plus the edge list in
insertion order with duplicate (unordered) pairs collapsed, as in
`nx.Graph`. -/
structure Graph where
  nodes : List (Nat × NodeAttr)
  edges : List Edge
deriving DecidableEq

/-- `G.add_node` with attribute overwrite. -/
def Graph.addNode (g : Graph) (i : Nat) (attr : NodeAttr) : Graph :=
  { g with nodes := pyDictSet g.nodes i attr }

/-- `G.add_edge(u, v, dep=d)`: update the label when the unordered pair is
already present, append the edge otherwise. -/
def Graph.addEdge (g : Graph) (u v : Nat) (d : String) : Graph :=
  let samePair : Edge → Bool := fun e =>
    decide ((e.a = u ∧ e.b = v) ∨ (e.a = v ∧ e.b = u))
  if g.edges.any samePair then
    { g with edges := g.edges.map (fun e => if samePair e then { e with dep := d } else e) }
  else
    { g with edges := g.edges ++ [{ a := u, b := v, dep := d }] }

/-- `_build_graph`: for each dependency, add both endpoints (dependent first,
as in the `types` list) with word/POS attributes, then the labelled edge. -/
def buildGraph (a : Ann) (deps : List Dep) : Graph :=
  deps.foldl
    (fun g d =>
      ((g.addNode d.dependent { word := d.dependentGloss, pos := annPos a d.dependent }).addNode
          d.governor { word := d.governorGloss, pos := annPos a d.governor }).addEdge
        d.dependent d.governor d.dep)
    { nodes := [], edges := [] }

/-- `G.node[i]["word"]`. -/
def nodeWord (g : Graph) (i : Nat) : String :=
  ((pyDictGet g.nodes i).getD { word := "", pos := "" }).word

/-- `G.node[i]["pos"]`. -/
def nodePos (g : Graph) (i : Nat) : String :=
  ((pyDictGet g.nodes i).getD { word := "", pos := "" }).pos

/-- The per-sentence globals the traversal reads: the token store `A`, the
graph `G` and the tracked measurement number word `Num`. -/
structure Ctx where
  ann : Ann
  graph : Graph
  num : String
deriving DecidableEq

/-- `_get_connected(edge, idx)`: the other endpoint of `edge` when `idx`
participates and the other endpoint's word differs from the tracked number
word.  `idx` arrives as `str(...)` in Python, so the comparison is on the
decimal string. -/
def getConnectedS (ctx : Ctx) (e : Edge) (idx : String) : Option Nat :=
  if toString e.a == idx && !(annWord ctx.ann e.b == ctx.num) then some e.b
  else if toString e.b == idx && !(annWord ctx.ann e.a == ctx.num) then some e.a
  else none

/-! ### Cousin search (`_get_cousin`)

The Python function threads one mutable `visited_nodes` dict through the
recursion (and, via a mutable default argument, across top-level calls).
The embedding passes that dict in and out explicitly.  The recursion is not
structurally bounded — the visit counters are incremented only *after* a
recursive call returns — so the definition takes a fuel parameter; `none`
means every finite recursion depth is exceeded. -/

/-- The `visited_nodes` dict: node id → visit count. -/
abbrev Visited := List (Nat × Nat)

/-- `visited_nodes[c] += 1` / `= 1`. -/
def visBump (vis : Visited) (c : Nat) : Visited :=
  match pyDictGet vis c with
  | some n => pyDictSet vis c (n + 1)
  | none => pyDictSet vis c 1

/-- `not c in visited_nodes or visited_nodes[c] < 2`. -/
def visOpen (vis : Visited) (c : Nat) : Bool :=
  match pyDictGet vis c with
  | some n => decide (n < 2)
  | none => true

/-- The `(dep_type, edge)` iteration of `_get_cousin`'s two nested loops:
`dep_type` outer, graph edges inner. -/
def cousinPairs (ctx : Ctx) (depTypes : List String) : List (String × Edge) :=
  (depTypes.map (fun dt => ctx.graph.edges.map (fun e => (dt, e)))).flatten

/-- The loop body of `_get_cousin` over the `(dep_type, edge)` pairs.
`recurse` is the nested `_get_cousin(cousin, ["nsubj","nsubjpass","acl"])`
call with one unit of fuel consumed.  The visit-count update runs after the
branch — in particular after the recursive call — exactly as in the source. -/
def cousinLoop (ctx : Ctx) (recurse : Nat → Visited → Option (List String × Visited))
    (sibling : Nat) :
    List (String × Edge) → List String → Visited → Option (List String × Visited)
  | [], words, vis => some (words, vis)
  | (dt, e) :: rest, words, vis =>
    match getConnectedS ctx e (toString sibling) with
    | none => cousinLoop ctx recurse sibling rest words vis
    | some cousin =>
      let cpos := annPos ctx.ann cousin
      if pyIn dt e.dep && (pyIn "NN" cpos || pyIn "PR" cpos) then
        cousinLoop ctx recurse sibling rest (words ++ [nodeWord ctx.graph cousin])
          (visBump vis cousin)
      else if pyIn dt e.dep && pyIn "VB" cpos && visOpen vis cousin then
        match recurse cousin vis with
        | none => none
        | some (ws, vis2) =>
          cousinLoop ctx recurse sibling rest (words ++ ws) (visBump vis2 cousin)
      else
        cousinLoop ctx recurse sibling rest words (visBump vis cousin)

/-- `_get_cousin(sibling_idx, dep_type_list, visited_nodes)`: scan all
`(dep_type, edge)` pairs; accept nominal/pronominal cousins, recurse through
verbal ones with the fixed label set, return `set(words)` plus the updated
visit dict. -/
def getCousin (ctx : Ctx) : Nat → Nat → List String → Visited → Option (List String × Visited)
  | 0, _, _, _ => none
  | fuel + 1, sibling, depTypes, vis =>
    match cousinLoop ctx (fun c v => getCousin ctx fuel c ["nsubj", "nsubjpass", "acl"] v)
        sibling (cousinPairs ctx depTypes) [] vis with
    | none => none
    | some (ws, vis2) => some (pySetL ws, vis2)

/-! ### Related-word records (`_add_related`) -/

/-- One descriptor entry `{tokenIndex, rawName}`. -/
structure Desc where
  tokenIndex : Nat
  rawName : String
deriving DecidableEq

/-- One related-word dict.  `descriptors := none` models the key being absent
(as `_add_related` builds the dict); `_add_descriptors` later assigns the key.
Dict equality — used by the `not doc in all_related` dedup and by
`list.remove` — is full structural equality including key presence. -/
structure Related where
  relationForm : String
  rawName : String
  tokenIndex : Nat
  offsetStart : Int
  offsetEnd : Int
  connector : String
  descriptors : Option (List Desc)
deriving DecidableEq

/-- Fallback `Related` for positional reads the loops guard by construction. -/
def Related.missing : Related :=
  { relationForm := "", rawName := "", tokenIndex := 0, offsetStart := 0, offsetEnd := 0,
    connector := "", descriptors := none }

/-- `_add_related(related, dep, all_related, index, connector)`: build the doc
(offsets from `A.lookup[int(index)]`) and append it unless an equal doc is
already present. -/
def addRelated (a : Ann) (related : String) (dep : String) (all : List Related)
    (index : Nat) (connector : Option String) : List Related :=
  let info := (pyDictGet a.lookup index).getD TokInfo.missing
  let doc : Related :=
    { relationForm := dep, rawName := related, tokenIndex := index,
      offsetStart := info.start, offsetEnd := info.endPos,
      connector := connector.getD "", descriptors := none }
  if all.contains doc then all else all ++ [doc]

/-! ### Pattern configuration (`dependency_patterns.json`) -/

/-- A JSON-shaped Python object as stored in the patterns tree: the engine
branches on `isinstance(..., dict)`, key presence, and `== None`/`== True`/
`== "always"` comparisons, all of which are mirrored structurally. -/
inductive PObj where
  | pnone : PObj
  | pbool (b : Bool) : PObj
  | pstr (s : String) : PObj
  | plist (l : List String) : PObj
  | pdict (entries : List (String × PObj)) : PObj

/-- Python truthiness of a `PObj` (`if dep_obj[pos_logic][pos]:`). -/
def PObj.truthy : PObj → Bool
  | .pnone => false
  | .pbool b => b
  | .pstr s => !(s == "")
  | .plist l => !l.isEmpty
  | .pdict kvs => !kvs.isEmpty

/-- Is the value `None`? -/
def PObj.isNone : PObj → Bool
  | .pnone => true
  | _ => false

/-- Key-presence test `k in obj` for dict-shaped values (`False` otherwise;
the patterns schema only probes keys of dicts). -/
def PObj.hasKey : PObj → String → Bool
  | .pdict kvs, k => kvs.any (fun p => p.1 == k)
  | _, _ => false

/-- Dict access `obj[k]`. -/
def PObj.getKey : PObj → String → Option PObj
  | .pdict kvs, k => (kvs.find? (fun p => p.1 == k)).map (fun p => p.2)
  | _, _ => none

/-- `obj["else"] == "always"`. -/
def PObj.elseAlways (o : PObj) : Bool :=
  match o.getKey "else" with
  | some (.pstr s) => s == "always"
  | _ => false

/-- `obj["else"] == True`. -/
def PObj.elseTrue (o : PObj) : Bool :=
  match o.getKey "else" with
  | some (.pbool b) => b
  | _ => false

/-- The `get_cousin` label list of an action dict (the schema stores a JSON
list; a malformed payload would crash the Python iteration and is not
modelled). -/
def PObj.cousinLabels (o : PObj) : List String :=
  match o.getKey "get_cousin" with
  | some (.plist l) => l
  | _ => []

/-- `tree["dep"][dep]["measurement_types"]` (missing or malformed key would
raise in Python — `InvalidPatternConfig` territory — and yields no match
here). -/
def PObj.mtypes (o : PObj) : List String :=
  match o.getKey "measurement_types" with
  | some (.plist l) => l
  | _ => []

/-- The patterns document: the `"dep"` table and the `"word" -> "or"`
operator-trigger list. -/
structure Tree where
  dep : List (String × PObj)
  wordOr : List String

/-- The `measurement_format` argument of `_parse_patterns`: the retry path
passes the *list* `["uncertain"]` where a string is expected, and a list never
equals any string during the `in measurement_types` membership test. -/
inductive MFormat where
  | fstr (s : String)
  | flist (l : List String)

/-- `measurement_format in measurement_types` (list membership, element `==`). -/
def fmtIn (f : MFormat) (mts : List String) : Bool :=
  match f with
  | .fstr s => mts.contains s
  | .flist _ => false

/-! ### Predicate evaluation (`_check_criteria`) -/

/-- The mutable locals of one `_check_criteria` call: the global result list
`all_related`, the per-call cousin word accumulator `related`, and the shared
`visited_nodes` dict. -/
structure CCState where
  allRelated : List Related
  related : List String
  vis : Visited

/-- The inner `for pos in dep_obj[pos_logic].keys()` loop.  `depObjKeys` is
`dep_obj.keys()` — the list the botched `pos_not` comprehension ranges over.
`conn` is the `connector` variable (reset per `pos_logic` iteration). -/
def ccPosLoop (ctx : Ctx) (fuel : Nat) (dep posLogic : String) (depObjKeys : List String)
    (sibling : Nat) :
    List (String × PObj) → Option String → CCState → Option (Option String × CCState)
  | [], conn, st => some (conn, st)
  | (pos, action) :: rest, conn, st =>
    let npos := nodePos ctx.graph sibling
    let passes : Bool :=
      if (posLogic == "pos_in" && pyIn pos npos) || (posLogic == "pos_equals" && pos == npos) then
        true
      else if posLogic == "pos_not" then
        -- Python: `if not [False if not_pos == G.node[sibling_idx]["pos"] else True
        --                 for not_pos in dep_obj.keys()]: continue`
        -- `continue` fires only when that list is empty, i.e. never for a
        -- non-empty rule dict.
        !(depObjKeys.map (fun k => if k == npos then false else true)).isEmpty
      else false
    if passes then
      let sibWord := nodeWord ctx.graph sibling
      let st1 :=
        if action.isNone || action.hasKey "add_sibling" then
          { st with allRelated :=
              addRelated ctx.ann sibWord dep st.allRelated (idxLookup ctx.ann sibWord) none }
        else st
      if action.truthy then
        let step : Option (List String × Visited × Option String) :=
          if action.hasKey "get_cousin" then
            match getCousin ctx fuel sibling action.cousinLabels st1.vis with
            | none => none
            | some (ws, vis2) => some (st1.related ++ ws, vis2, some sibWord)
          else some (st1.related, st1.vis, conn)
        match step with
        | none => none
        | some (rel2, vis2, conn2) =>
          let rel3 :=
            if action.hasKey "special" && dep == "compound" && pos == "NN" then [sibWord]
            else rel2
          -- `if None in related: related.remove(None)` — cousin words are
          -- strings, so this is a no-op and is not modelled.
          let st2 : CCState := { allRelated := st1.allRelated, related := rel3, vis := vis2 }
          let st3 :=
            if action.elseAlways then
              { st2 with allRelated :=
                  addRelated ctx.ann sibWord dep st2.allRelated (idxLookup ctx.ann sibWord) conn2 }
            else st2
          let addEach : List Related :=
            st3.related.foldl
              (fun acc x => addRelated ctx.ann x dep acc (idxLookup ctx.ann x) conn2)
              st3.allRelated
          let st4 :=
            if !st3.related.isEmpty then
              { st3 with allRelated := addEach }
            else if action.elseTrue then
              { st3 with allRelated :=
                  addRelated ctx.ann sibWord dep st3.allRelated (idxLookup ctx.ann sibWord) conn2 }
            else st3
          ccPosLoop ctx fuel dep posLogic depObjKeys sibling rest conn2 st4
      else
        ccPosLoop ctx fuel dep posLogic depObjKeys sibling rest conn st1
    else
      ccPosLoop ctx fuel dep posLogic depObjKeys sibling rest conn st

/-- The outer `for pos_logic in dep_obj.keys()` loop with its
`isinstance(..., dict)` guard; `connector` restarts at `None` each
iteration. -/
def ccLogicLoop (ctx : Ctx) (fuel : Nat) (dep : String) (depObjKeys : List String)
    (sibling : Nat) :
    List (String × PObj) → CCState → Option CCState
  | [], st => some st
  | (posLogic, v) :: rest, st =>
    match v with
    | .pdict posEntries =>
      match ccPosLoop ctx fuel dep posLogic depObjKeys sibling posEntries none st with
      | none => none
      | some (_, st2) => ccLogicLoop ctx fuel dep depObjKeys sibling rest st2
    | _ => ccLogicLoop ctx fuel dep depObjKeys sibling rest st

/-- `_check_criteria(dep, dep_obj, all_related, edge, sibling_idx)`.  The
local `related` accumulator starts empty and is dropped at return; only
`all_related` (and the shared visit dict) survive. -/
def checkCriteria (ctx : Ctx) (fuel : Nat) (dep : String) (depObj : List (String × PObj))
    (allRelated : List Related) (edge : Edge) (sibling : Nat) (vis : Visited) :
    Option (List Related × Visited) :=
  if edge.dep == dep then
    match ccLogicLoop ctx fuel dep (depObj.map (fun p => p.1)) sibling depObj
        { allRelated := allRelated, related := [], vis := vis } with
    | none => none
    | some st => some (st.allRelated, st.vis)
  else some (allRelated, vis)

/-! ### Descriptor augmentation (`_add_descriptors`) -/

/-- Append a descriptor to the `i`-th related entry in place. -/
def descAppend (rel : List Related) (i : Nat) (d : Desc) : List Related :=
  let r := rel.getD i Related.missing
  rel.set i { r with descriptors := some ((r.descriptors.getD []) ++ [d]) }

/-- The inner `for edge in G.edges(data=True)` loop of `_add_descriptors` for
the entry at position `i`: collect adjectival/`amod`/`compound` siblings as
descriptors and fold `nmod` cousins of nominal `amod` siblings back into the
related list. -/
def descEdgeLoop (ctx : Ctx) (fuel : Nat) (i : Nat) :
    List Edge → List Related → Visited → Option (List Related × Visited)
  | [], rel, vis => some (rel, vis)
  | e :: rest, rel, vis =>
    let r := rel.getD i Related.missing
    match getConnectedS ctx e (toString r.tokenIndex) with
    | none => descEdgeLoop ctx fuel i rest rel vis
    | some sib =>
      let sibInfo := (pyDictGet ctx.ann.lookup sib).getD TokInfo.missing
      let rel1 :=
        if sibInfo.pos == "JJ" || e.dep == "amod" || e.dep == "compound" then
          descAppend rel i { tokenIndex := sib, rawName := sibInfo.word }
        else rel
      if pyIn "NN" sibInfo.pos && pyIn "amod" e.dep then
        match getCousin ctx fuel sib ["nmod"] vis with
        | none => none
        | some (ws, vis2) =>
          let rel2 :=
            (pySetL ws).foldl
              (fun acc w =>
                addRelated ctx.ann w "nmod" acc (idxLookup ctx.ann w)
                  (some (nodeWord ctx.graph sib)))
              rel1
          descEdgeLoop ctx fuel i rest rel2 vis2
      else descEdgeLoop ctx fuel i rest rel1 vis

/-- The outer `for r in related` loop.  Python iterates a list that
`_add_related` may extend mid-loop, so newly appended entries are processed
too; a separate loop budget bounds that growth (`none` = budget exceeded,
which no claim's input reaches). -/
def descOuter (ctx : Ctx) (fuel : Nat) :
    Nat → Nat → List Related → Visited → Option (List Related × Visited)
  | 0, i, rel, vis => if i < rel.length then none else some (rel, vis)
  | loopFuel + 1, i, rel, vis =>
    if h : i < rel.length then
      let r := rel.get ⟨i, h⟩
      let rel0 := rel.set i { r with descriptors := some [] }
      match descEdgeLoop ctx fuel i ctx.graph.edges rel0 vis with
      | none => none
      | some (rel1, vis1) => descOuter ctx fuel loopFuel (i + 1) rel1 vis1
    else some (rel, vis)

/-- `_add_descriptors(related)`. -/
def addDescriptors (ctx : Ctx) (fuel : Nat) (rel : List Related) (vis : Visited) :
    Option (List Related × Visited) :=
  descOuter ctx fuel (rel.length + fuel) 0 rel vis

/-! ### Sibling scan (`_parse_patterns`) -/

/-- The enhanced-dependency inner loop: each dict-valued sub-entry tagged for
the current measurement format is checked under the composite
`dep ++ ":" ++ inner_dep` label. -/
def ppInnerLoop (ctx : Ctx) (fuel : Nat) (fmt : MFormat) (edge : Edge) (sibling : Nat)
    (depName : String) :
    List (String × PObj) → List Related × Visited → Option (List Related × Visited)
  | [], acc => some acc
  | (innerName, innerVal) :: rest, (all, vis) =>
    match innerVal with
    | .pdict innerKvs =>
      if fmtIn fmt innerVal.mtypes then
        match checkCriteria ctx fuel (depName ++ ":" ++ innerName) innerKvs all edge sibling vis with
        | none => none
        | some acc2 => ppInnerLoop ctx fuel fmt edge sibling depName rest acc2
      else ppInnerLoop ctx fuel fmt edge sibling depName rest (all, vis)
    | _ => ppInnerLoop ctx fuel fmt edge sibling depName rest (all, vis)

/-- The `for dep in tree["dep"].keys()` loop for one resolved sibling. -/
def ppDepLoop (ctx : Ctx) (fuel : Nat) (fmt : MFormat) (edge : Edge) (sibling : Nat) :
    List (String × PObj) → List Related × Visited → Option (List Related × Visited)
  | [], acc => some acc
  | (depName, entry) :: rest, (all, vis) =>
    let isEnh : Bool :=
      match entry.getKey "enhanced" with
      | some (.pbool b) => b
      | _ => false
    if isEnh then
      match entry with
      | .pdict entryKvs =>
        match ppInnerLoop ctx fuel fmt edge sibling depName entryKvs (all, vis) with
        | none => none
        | some acc2 => ppDepLoop ctx fuel fmt edge sibling rest acc2
      | _ => ppDepLoop ctx fuel fmt edge sibling rest (all, vis)
    else
      if fmtIn fmt entry.mtypes then
        match entry with
        | .pdict entryKvs =>
          match checkCriteria ctx fuel depName entryKvs all edge sibling vis with
          | none => none
          | some acc2 => ppDepLoop ctx fuel fmt edge sibling rest acc2
        | _ => ppDepLoop ctx fuel fmt edge sibling rest (all, vis)
      else ppDepLoop ctx fuel fmt edge sibling rest (all, vis)

/-- The operator-trigger loop `for x in tree["word"]["or"]`. -/
def ppWordLoop (ctx : Ctx) (fuel : Nat) (sibling : Nat) :
    List String → List Related × Visited → Option (List Related × Visited)
  | [], acc => some acc
  | w :: rest, (all, vis) =>
    if nodeWord ctx.graph sibling == w then
      match getCousin ctx fuel sibling ["nsubj"] vis with
      | none => none
      | some (ws, vis2) =>
        let all2 :=
          ws.foldl (fun acc r => addRelated ctx.ann r "operator" acc (idxLookup ctx.ann r) none)
            all
        ppWordLoop ctx fuel sibling rest (all2, vis2)
    else ppWordLoop ctx fuel sibling rest (all, vis)

/-- The `for idx in unit_idx` loop for one edge: resolve the sibling and run
the dependency table and the operator-word scan against it. -/
def ppIdxLoop (ctx : Ctx) (tree : Tree) (fuel : Nat) (fmt : MFormat) (edge : Edge) :
    List PyV → List Related × Visited → Option (List Related × Visited)
  | [], acc => some acc
  | idx :: rest, acc =>
    match getConnectedS ctx edge (pyvStr idx) with
    | none => ppIdxLoop ctx tree fuel fmt edge rest acc
    | some sibling =>
      match ppDepLoop ctx fuel fmt edge sibling tree.dep acc with
      | none => none
      | some acc2 =>
        match ppWordLoop ctx fuel sibling tree.wordOr acc2 with
        | none => none
        | some acc3 => ppIdxLoop ctx tree fuel fmt edge rest acc3

/-- The outer `for edge in G.edges(data=True)` loop. -/
def ppEdgeLoop (ctx : Ctx) (tree : Tree) (fuel : Nat) (fmt : MFormat) (unitIdx : List PyV) :
    List Edge → List Related × Visited → Option (List Related × Visited)
  | [], acc => some acc
  | e :: rest, acc =>
    match ppIdxLoop ctx tree fuel fmt e unitIdx acc with
    | none => none
    | some acc2 => ppEdgeLoop ctx tree fuel fmt unitIdx rest acc2

/-- `_parse_patterns(unit_idx, measurement_format, patterns_file)`: sibling
scan over every edge/anchor pair followed by `_add_descriptors`.  Always
returns a list (never Python `None`). -/
def parsePatterns (ctx : Ctx) (tree : Tree) (fuel : Nat) (unitIdx : List PyV) (fmt : MFormat)
    (vis : Visited) : Option (List Related × Visited) :=
  match ppEdgeLoop ctx tree fuel fmt unitIdx ctx.graph.edges ([], vis) with
  | none => none
  | some (all, vis1) => addDescriptors ctx fuel all vis1

/-! ### Grobid payload records -/

/-- The `rawUnit` sub-record after `grobid.py` has augmented it: `after` is
copied from the *number* token's trailing text, and `tokenIndices` holds
*decimal strings* (`str(...)` is applied to every entry). -/
structure RawUnit where
  name : String
  tokenIndices : List PyV
  after : String
deriving DecidableEq

/-- One quantity/quantified sub-record (`grobid[key]`): every field is
optional because the reconciler and aligner probe key presence with `in`. -/
structure QRec where
  rawValue : Option String
  parsedValue : Option String
  rawUnit : Option RawUnit
  normalizedName : Option String
  rawName : Option String
  tokenIndex : Option PyV
deriving DecidableEq

/-- One Grobid measurement payload as consumed by `augment_match` and
`_get_related`. -/
structure GrobidQ where
  type : String
  quantity : Option QRec
  quantityLeast : Option QRec
  quantityMost : Option QRec
  quantified : Option QRec
deriving DecidableEq

/-- `match["grobid"][key]` for the four reconciler keys. -/
def grobidField (g : GrobidQ) : String → Option QRec := fun k =>
  if k = "quantity" then g.quantity
  else if k = "quantityLeast" then g.quantityLeast
  else if k = "quantityMost" then g.quantityMost
  else if k = "quantified" then g.quantified
  else none

/-! ### Result reconciliation (`_get_related`, lines 336-359) -/

/-- The removal test of the reconciler: the related word's `rawName` equals
the raw value, the unit name, the normalized quantified name, or the
number+unit concatenation, or contains a non-empty quantified name. -/
def reconMatch (q : QRec) (r : Related) : Bool :=
  let num := q.rawValue.getD ""
  let unit := match q.rawUnit with
    | some u => u.name
    | none => ""
  let quantified := q.normalizedName.getD ""
  r.rawName == num || r.rawName == unit || r.rawName == quantified ||
    r.rawName == num ++ unit || (pyIn quantified r.rawName && !(quantified == ""))

/-- CPython `for related in all_related: ... all_related.remove(related)`:
the iterator advances by position while `remove` deletes the first equal
element, so the element after a removed one is skipped.  `gas` bounds the
iteration count structurally; the list never grows, so the caller's
`lst.length` budget always suffices. -/
def pyRemoveGo (p : Related → Bool) : Nat → Nat → List Related → List Related
  | 0, _, lst => lst
  | gas + 1, i, lst =>
    if h : i < lst.length then
      pyRemoveGo p gas (i + 1)
        (if p (lst.get ⟨i, h⟩) then lst.erase (lst.get ⟨i, h⟩) else lst)
    else lst

/-- The remove-while-iterating loop started at position 0. -/
def pyRemoveLoop (p : Related → Bool) (lst : List Related) : List Related :=
  pyRemoveGo p lst.length 0 lst

/-- The reconciler pass of `_get_related`: for each of the four potential
keys present in the Grobid payload, run the remove-while-iterating loop over
the related list.  (The attribute merge-back onto the Grobid sub-records
mutates only the payload, not the returned list, and is not modelled.) -/
def reconcile (g : GrobidQ) (all : List Related) : List Related :=
  ["quantity", "quantityLeast", "quantityMost", "quantified"].foldl
    (fun acc key =>
      match grobidField g key with
      | none => acc
      | some q => pyRemoveLoop (reconMatch q) acc)
    all

/-! ### Measurement alignment (`classes.Annotations.augment_match`) -/

/-- One aligned measurement appended to `Annotations.matches`. -/
structure MatchRec where
  measurement_format : String
  unit_idx : List PyV
  unit : String
  num_idx : String
  num : String
  grobid : GrobidQ
deriving DecidableEq

/-- Outcome of `augment_match`: the explicit `ValueError` for an unhandled
Grobid type, a `KeyError` from a missing mandatory field, or success —
`ok none` is the silent early return for a quantified entity without a
token index. -/
inductive AugRes where
  | valueError : AugRes
  | keyErr : AugRes
  | ok (m : Option MatchRec) : AugRes
deriving DecidableEq

/-- The tail of `augment_match`: compute `num` and append the match.
`num` is set only for `key == "quantity"`, or by the interval branch whose
guard additionally demands a `quantityLeast` — a condition that contradicts
the key selection and therefore never fires. -/
def mkMatch (g : GrobidQ) (k : String) (q : QRec) (format unit : String)
    (unitIdx : List PyV) : AugRes :=
  let num0 : Option String :=
    if k = "quantity" then q.rawValue else some ""
  match num0 with
  | none => .keyErr
  | some n0 =>
    let num1 : Option String :=
      if k = "quantityMost" ∧ g.quantityLeast.isSome then
        match g.quantityLeast with
        | some ql =>
          match ql.rawValue, q.rawValue with
          | some a, some b => some (a ++ " to " ++ b)
          | _, _ => none
        | none => none
      else some n0
    match num1 with
    | none => .keyErr
    | some n =>
      match q.tokenIndex with
      | none => .keyErr
      | some ti =>
        .ok (some { measurement_format := format, unit_idx := unitIdx, unit := unit,
                    num_idx := pyvStr ti, num := n, grobid := g })

/-- The body of `augment_match` once the working key is selected: classify
the measurement format from the unit sub-record (or fall back to the
quantified entity), then build the match record. -/
def augForKey (g : GrobidQ) (k : String) : AugRes :=
  match grobidField g k with
  | none => .keyErr
  | some q =>
    match q.rawUnit with
    | some ru =>
      match q.tokenIndex with
      | none => .keyErr
      | some ti =>
        let format :=
          if ru.tokenIndices.any (fun x => pyEq x ti) then "attached"
          else if ru.after == "-" then "hyphenated"
          else "space_between"
        mkMatch g k q format ru.name ru.tokenIndices
    | none =>
      match g.quantified with
      | some qd =>
        match qd.normalizedName with
        | none => .keyErr
        | some nn =>
          match qd.tokenIndex with
          | some ti => mkMatch g k q "space_between" nn [ti]
          | none => .ok none
      | none => mkMatch g k q "" "" []

/-- `augment_match(grobid)`: select the working key from the payload type
(`ValueError` when the type is neither `value` nor `interval`), then build
and append the match. -/
def augmentMatch (g : GrobidQ) : AugRes :=
  let key : Option String :=
    if g.type = "value" then some "quantity"
    else if g.type = "interval" ∧ g.quantityLeast.isSome then some "quantityLeast"
    else if g.type = "interval" ∧ ¬g.quantityLeast.isSome then some "quantityMost"
    else none
  match key with
  | none => .valueError
  | some k => augForKey g k

/-! ### Unit alignment (`grobid.py`, lines 96-107) -/

/-- The raw unit fields Grobid reports before `grobid.py` augments them. -/
structure GUnitIn where
  name : String
  offsetStart : Int
  offsetEnd : Int
deriving DecidableEq

/-- The `rawUnit` augmentation of `grobid_quantities`: `after` is the
*number* token's trailing text; `tokenIndices` collects `str(...)` of the
token at the unit's start offset, the token at its end offset, and the
number's own token index when the unit starts exactly at the number's end,
then dedups with `list(set(...))`. -/
def grobidUnitFields (a : Ann) (numTokenIndex : Nat) (numOffsetEnd : Int) (u : GUnitIn) :
    RawUnit :=
  let after := ((pyDictGet a.lookup numTokenIndex).getD TokInfo.missing).after
  let t1 : List PyV :=
    match pyDictGet a.tokStart u.offsetStart with
    | some i => [.vstr (toString i)]
    | none => []
  let t2 : List PyV :=
    match pyDictGet a.tokEnd u.offsetEnd with
    | some i => [.vstr (toString i)]
    | none => []
  let t3 : List PyV :=
    if u.offsetStart == numOffsetEnd then [.vstr (toString numTokenIndex)] else []
  { name := u.name, tokenIndices := pySetV (t1 ++ t2 ++ t3), after := after }

/-! ### `_get_related` -/

/-- The Python comparison `all_related == None`: `_parse_patterns` returns a
list object, and a list never equals `None`, so this is constantly `False` —
which is exactly why the `uncertain` retry below it is dead code. -/
def pyListEqNone (_l : List Related) : Bool := false

/-- The two lists `_get_related` produces: the reconciled related words and
the `advmod`-filtered adverb scan.  (The key pops on adverb dicts only shape
the serialized output and are not modelled.) -/
structure RelOut where
  related : List Related
  adverbs : List Related
deriving DecidableEq

/-- `_get_related(stats, match, patterns_file)`: first sibling scan with the
match's own format, the (dead) `uncertain` retry, the adverb scan rooted at
the number token, and the reconciler pass guarded by list truthiness. -/
def getRelated (ctx : Ctx) (tree : Tree) (fuel : Nat) (m : MatchRec) (vis : Visited) :
    Option (RelOut × Visited) :=
  match parsePatterns ctx tree fuel m.unit_idx (.fstr m.measurement_format) vis with
  | none => none
  | some (rel1, vis1) =>
    let retry :=
      if pyListEqNone rel1 then
        parsePatterns ctx tree fuel m.unit_idx (.flist ["uncertain"]) vis1
      else some (rel1, vis1)
    match retry with
    | none => none
    | some (rel2, vis2) =>
      match parsePatterns ctx tree fuel [.vstr m.num_idx] (.fstr m.measurement_format) vis2 with
      | none => none
      | some (adv, vis3) =>
        let adverbs := adv.filter (fun a => a.relationForm == "advmod")
        let rel3 := if rel2.isEmpty then rel2 else reconcile m.grobid rel2
        some ({ related := rel3, adverbs := adverbs }, vis3)

/-! ### Simplified projection (`_simplify_results`) -/

/-- Ascending token-index order on descriptors. -/
def descLE (a b : Desc) : Prop := a.tokenIndex ≤ b.tokenIndex

instance : DecidableRel descLE := fun a b => Nat.decLe a.tokenIndex b.tokenIndex

instance : IsTotal Desc descLE := ⟨fun a b => Nat.le_total a.tokenIndex b.tokenIndex⟩

instance : IsTrans Desc descLE := ⟨fun _ _ _ h1 h2 => Nat.le_trans h1 h2⟩

/-- The in-place descriptor sort
`r["descriptors"].sort(key=lambda x: int(x["tokenIndex"]))` — Python's
stable ascending sort, modelled by the stable `insertionSort`. -/
def sortDescriptors (l : List Desc) : List Desc :=
  List.insertionSort descLE l

/-- `simplified["value"]`: a singleton list is collapsed to its element. -/
inductive SimpVal where
  | single (s : String)
  | listv (l : List String)
deriving DecidableEq

/-- The reduced projection `_simplify_results` emits. -/
structure Simplified where
  value : SimpVal
  unit : Option String
  quantified : List (String × List String)
  related : List (String × List String)
deriving DecidableEq

/-- The `match[key]` sub-records as read by `_simplify_results`, plus the
quantified record and the related list. -/
structure MatchOut where
  type : String
  quantity : Option QRec
  quantityLeast : Option QRec
  quantityMost : Option QRec
  quantified : Option QRec
  quantifiedDescriptors : Option (List Desc)
  related : List Related
deriving DecidableEq

/-- One step of the `for key in keys` loop: prefer `parsedValue`, fall back
to `rawValue`, abort (`return None`) when neither exists; `unit` is
(re)assigned from the key's `rawUnit`. -/
def simpKeyStep (m : MatchOut) (acc : List String × Option String) (key : String) :
    Option (List String × Option String) :=
  match grobidFieldOut m key with
  | none => some acc
  | some q =>
    match (match q.parsedValue with
           | some p => some p
           | none => q.rawValue) with
    | none => none
    | some v =>
      some (acc.1 ++ [v],
        some (match q.rawUnit with
              | some u => u.name
              | none => ""))
where
  grobidFieldOut (m : MatchOut) (k : String) : Option QRec :=
    if k == "quantity" then m.quantity
    else if k == "quantityLeast" then m.quantityLeast
    else if k == "quantityMost" then m.quantityMost
    else none

/-- `_simplify_results(match)`: collect values and unit, collapse a singleton
value, then project quantified and related entries to their (sorted)
descriptor names.  `none` covers the explicit `return None` and the
`KeyError` on a missing `unit` entry that the quantified branch would hit. -/
def simplifyResults (m : MatchOut) : Option Simplified :=
  let keys : List String :=
    if m.type == "value" then ["quantity"]
    else if m.type == "interval" then ["quantityLeast", "quantityMost"]
    else []
  match keys.foldlM (simpKeyStep m) ([], none) with
  | none => none
  | some (vals, unit) =>
    let value : SimpVal :=
      match vals with
      | [v] => .single v
      | _ => .listv vals
    match m.quantified with
    | some qd =>
      match unit with
      | none => none
      | some u =>
        match qd.normalizedName with
        | none => none
        | some nn =>
          let unit2 := if u == "" then nn else u
          let qDescs :=
            match m.quantifiedDescriptors with
            | some d => (sortDescriptors d).map (fun x => x.rawName)
            | none => []
          some { value := value, unit := some unit2,
                 quantified := [(nn, qDescs)], related := relatedMap m }
    | none =>
      some { value := value, unit := unit, quantified := [], related := relatedMap m }
where
  relatedMap (m : MatchOut) : List (String × List String) :=
    m.related.foldl
      (fun acc r =>
        let descs :=
          match r.descriptors with
          | some d => (sortDescriptors d).map (fun x => x.rawName)
          | none => []
        pyDictSet acc r.rawName descs)
      []

/-! ### Top-level `extract` guard -/

/-- Externally visible side effects of `extract` that the short-input guard
must not produce. -/
inductive Effect where
  | fileOpen (path : String)
  | corenlpAnnotate (endpoint : String)
  | grobidCall (endpoint : String)
  | fileWrite (data : String)
deriving DecidableEq

/-- `extract(content, ...)` down to its guard: the output file is opened for
append first (when requested), then inputs shorter than 5 characters return
`None` before the CoreNLP client is used.  The post-guard pipeline
(lines 475-543) is abstracted as `rest`; the claim under verification
conditions on the guard, and the CoreNLP call that begins the pipeline is
recorded explicitly. -/
def extract (rest : String → List Effect × Option (List MatchRec))
    (corenlpEndpoint : String) (content : String) (outputFile : Option String) :
    Option (List MatchRec) × List Effect :=
  let openEff : List Effect :=
    match outputFile with
    | some p => [.fileOpen p]
    | none => []
  if content.length < 5 then (none, openEff)
  else
    let (effs, res) := rest content
    (res, openEff ++ [.corenlpAnnotate corenlpEndpoint] ++ effs)

/-! ### Concrete inputs used to settle the claims -/

/-- C1 payload: a `value` measurement `28 weeks`. -/
def c1g : GrobidQ :=
  { type := "value",
    quantity := some
      { rawValue := some "28", parsedValue := none,
        rawUnit := some { name := "weeks", tokenIndices := [.vstr "7"], after := " " },
        normalizedName := none, rawName := none, tokenIndex := some (.vint 6) },
    quantityLeast := none, quantityMost := none, quantified := none }

/-- C1: first related entry whose `rawName` equals the unit text. -/
def c1r1 : Related :=
  { relationForm := "nmod", rawName := "weeks", tokenIndex := 7,
    offsetStart := 34, offsetEnd := 39, connector := "", descriptors := some [] }

/-- C1: second related entry with the same `rawName` but different metadata. -/
def c1r2 : Related :=
  { relationForm := "amod", rawName := "weeks", tokenIndex := 7,
    offsetStart := 34, offsetEnd := 39, connector := "of", descriptors := some [] }

/-- C2 token list: the sentence fragment `10m long` where digit and unit share
one token. -/
def c2toks : List Token :=
  [ { index := 1, word := "10m", originalText := "10m", lemmaStr := "10m", pos := "CD",
      characterOffsetBegin := 0, characterOffsetEnd := 3, ner := "NUMBER", after := " " },
    { index := 2, word := "long", originalText := "long", lemmaStr := "long", pos := "JJ",
      characterOffsetBegin := 4, characterOffsetEnd := 8, ner := "O", after := "" } ]

/-- C2 token store. -/
def c2ann : Ann := Ann.ofTokens c2toks

/-- C2: the unit fields `grobid.py` computes for unit `m` at offsets 2-3 when
the quantity `10` occupies offsets 0-2 of token 1. -/
def c2unit : RawUnit :=
  grobidUnitFields c2ann 1 2 { name := "m", offsetStart := 2, offsetEnd := 3 }

/-- C2 payload handed to `augment_match`. -/
def c2g : GrobidQ :=
  { type := "value",
    quantity := some
      { rawValue := some "10", parsedValue := none, rawUnit := some c2unit,
        normalizedName := none, rawName := none, tokenIndex := some (.vint 1) },
    quantityLeast := none, quantityMost := none, quantified := none }

/-- C2: the match `augment_match` produces for `c2g`. -/
def c2match : MatchRec :=
  { measurement_format := "space_between", unit_idx := [.vstr "1"], unit := "m",
    num_idx := "1", num := "10", grobid := c2g }

/-- C3 tokens: two verbs. -/
def c3toks : List Token :=
  [ { index := 1, word := "linger", originalText := "linger", lemmaStr := "linger", pos := "VB",
      characterOffsetBegin := 0, characterOffsetEnd := 6, ner := "O", after := " " },
    { index := 2, word := "seems", originalText := "seems", lemmaStr := "seem", pos := "VB",
      characterOffsetBegin := 7, characterOffsetEnd := 12, ner := "O", after := "" } ]

/-- C3 dependency list: one `nsubj` edge linking the two verbs. -/
def c3deps : List Dep :=
  [ { governor := 1, dependent := 2, governorGloss := "linger", dependentGloss := "seems",
      dep := "nsubj" } ]

/-- C3 token store. -/
def c3ann : Ann := Ann.ofTokens c3toks

/-- C3 sentence context (tracked number word not in the graph). -/
def c3ctx : Ctx := { ann := c3ann, graph := buildGraph c3ann c3deps, num := "28" }

/-- C4 tokens: a noun anchor, a verb hub, its subject and a second anchor. -/
def c4toks : List Token :=
  [ { index := 1, word := "alpha", originalText := "alpha", lemmaStr := "alpha", pos := "NN",
      characterOffsetBegin := 0, characterOffsetEnd := 5, ner := "O", after := " " },
    { index := 2, word := "holds", originalText := "holds", lemmaStr := "hold", pos := "VBZ",
      characterOffsetBegin := 6, characterOffsetEnd := 11, ner := "O", after := " " },
    { index := 3, word := "sample", originalText := "sample", lemmaStr := "sample", pos := "NN",
      characterOffsetBegin := 12, characterOffsetEnd := 18, ner := "O", after := " " },
    { index := 4, word := "beta", originalText := "beta", lemmaStr := "beta", pos := "NN",
      characterOffsetBegin := 19, characterOffsetEnd := 23, ner := "O", after := "" } ]

/-- C4 dependency list. -/
def c4deps : List Dep :=
  [ { governor := 2, dependent := 1, governorGloss := "holds", dependentGloss := "alpha",
      dep := "dep" },
    { governor := 2, dependent := 3, governorGloss := "holds", dependentGloss := "sample",
      dep := "nsubj" },
    { governor := 2, dependent := 4, governorGloss := "holds", dependentGloss := "beta",
      dep := "nmod" } ]

/-- C4 token store. -/
def c4ann : Ann := Ann.ofTokens c4toks

/-- C4 sentence context. -/
def c4ctx : Ctx := { ann := c4ann, graph := buildGraph c4ann c4deps, num := "28" }

/-- C5/C6 tokens: `28 weeks gestation`-style fragment. -/
def c5toks : List Token :=
  [ { index := 1, word := "28", originalText := "28", lemmaStr := "28", pos := "CD",
      characterOffsetBegin := 0, characterOffsetEnd := 2, ner := "NUMBER", after := " " },
    { index := 2, word := "weeks", originalText := "weeks", lemmaStr := "week", pos := "NNS",
      characterOffsetBegin := 3, characterOffsetEnd := 8, ner := "DURATION", after := " " },
    { index := 3, word := "gestation", originalText := "gestation", lemmaStr := "gestation",
      pos := "NN", characterOffsetBegin := 9, characterOffsetEnd := 18, ner := "O",
      after := "" } ]

/-- C5/C6 dependency list: the unit's single neighbour is the noun. -/
def c5deps : List Dep :=
  [ { governor := 2, dependent := 3, governorGloss := "weeks", dependentGloss := "gestation",
      dep := "nmod" } ]

/-- C5/C6 token store. -/
def c5ann : Ann := Ann.ofTokens c5toks

/-- C5/C6 sentence context (`Num = "28"`). -/
def c5ctx : Ctx := { ann := c5ann, graph := buildGraph c5ann c5deps, num := "28" }

/-- C5 patterns: the only rule for `nmod` is tagged for format `uncertain`. -/
def c5tree : Tree :=
  { dep := [("nmod", .pdict
      [ ("enhanced", .pbool false),
        ("measurement_types", .plist ["uncertain"]),
        ("pos_in", .pdict [("NN", .pnone)]) ])],
    wordOr := [] }

/-- C5 match: a `space_between` measurement anchored at unit token 2. -/
def c5match : MatchRec :=
  { measurement_format := "space_between", unit_idx := [.vstr "2"], unit := "weeks",
    num_idx := "1", num := "28",
    grobid :=
      { type := "value",
        quantity := some
          { rawValue := some "28", parsedValue := none,
            rawUnit := some { name := "weeks", tokenIndices := [.vstr "2"], after := " " },
            normalizedName := none, rawName := none, tokenIndex := some (.vint 1) },
        quantityLeast := none, quantityMost := none, quantified := none } }

/-- C6 rule body: a `pos_not` predicate whose only configured POS key matches
the sibling's own tag. -/
def c6depObj : List (String × PObj) :=
  [ ("enhanced", .pbool false),
    ("measurement_types", .plist ["space_between"]),
    ("pos_not", .pdict [("NN", .pnone)]) ]

/-- C6: the single graph edge the rule is evaluated against. -/
def c6edge : Edge := { a := 3, b := 2, dep := "nmod" }

/-- C6: the related entry the code emits for the excluded sibling. -/
def c6emitted : Related :=
  { relationForm := "nmod", rawName := "gestation", tokenIndex := 3,
    offsetStart := 9, offsetEnd := 18, connector := "", descriptors := none }

/-- C7 payload: an interval with no `quantityLeast`. -/
def c7g0 : GrobidQ :=
  { type := "interval", quantity := none, quantityLeast := none,
    quantityMost := some
      { rawValue := some "30", parsedValue := none, rawUnit := none,
        normalizedName := none, rawName := none, tokenIndex := some (.vint 3) },
    quantified := none }

/-- C7: the match `augment_match` emits for `c7g0`. -/
def c7m0 : MatchRec :=
  { measurement_format := "", unit_idx := [], unit := "", num_idx := "3", num := "",
    grobid := c7g0 }

/-- C8 tokens: measurement, unit, a noun and two adjectives whose edges are
inserted in descending token order. -/
def c8toks : List Token :=
  [ { index := 1, word := "28", originalText := "28", lemmaStr := "28", pos := "CD",
      characterOffsetBegin := 0, characterOffsetEnd := 2, ner := "NUMBER", after := " " },
    { index := 2, word := "weeks", originalText := "weeks", lemmaStr := "week", pos := "NNS",
      characterOffsetBegin := 3, characterOffsetEnd := 8, ner := "DURATION", after := " " },
    { index := 3, word := "old", originalText := "old", lemmaStr := "old", pos := "JJ",
      characterOffsetBegin := 9, characterOffsetEnd := 12, ner := "O", after := " " },
    { index := 4, word := "window", originalText := "window", lemmaStr := "window", pos := "NN",
      characterOffsetBegin := 13, characterOffsetEnd := 19, ner := "O", after := " " },
    { index := 5, word := "big", originalText := "big", lemmaStr := "big", pos := "JJ",
      characterOffsetBegin := 20, characterOffsetEnd := 23, ner := "O", after := "" } ]

/-- C8 dependency list: the `window`-`big` edge precedes the `window`-`old`
edge, so descriptor collection sees token 5 before token 3. -/
def c8deps : List Dep :=
  [ { governor := 2, dependent := 4, governorGloss := "weeks", dependentGloss := "window",
      dep := "nmod" },
    { governor := 4, dependent := 5, governorGloss := "window", dependentGloss := "big",
      dep := "amod" },
    { governor := 4, dependent := 3, governorGloss := "window", dependentGloss := "old",
      dep := "amod" } ]

/-- C8 token store. -/
def c8ann : Ann := Ann.ofTokens c8toks

/-- C8 sentence context. -/
def c8ctx : Ctx := { ann := c8ann, graph := buildGraph c8ann c8deps, num := "28" }

/-- C8 patterns: emit `nmod` noun siblings. -/
def c8tree : Tree :=
  { dep := [("nmod", .pdict
      [ ("enhanced", .pbool false),
        ("measurement_types", .plist ["space_between"]),
        ("pos_in", .pdict [("NN", .pnone)]) ])],
    wordOr := [] }

/-- C8: the emitted related word with its descriptors in edge-scan order. -/
def c8related : Related :=
  { relationForm := "nmod", rawName := "window", tokenIndex := 4,
    offsetStart := 13, offsetEnd := 19, connector := "",
    descriptors := some [ { tokenIndex := 5, rawName := "big" },
                          { tokenIndex := 3, rawName := "old" } ] }

/-- C8: the serialized match record handed to `_simplify_results`. -/
def c8matchOut : MatchOut :=
  { type := "value",
    quantity := some
      { rawValue := some "28", parsedValue := none,
        rawUnit := some { name := "weeks", tokenIndices := [.vstr "2"], after := " " },
        normalizedName := none, rawName := none, tokenIndex := some (.vint 1) },
    quantityLeast := none, quantityMost := none, quantified := none,
    quantifiedDescriptors := none, related := [c8related] }

/-- C9 tokens: the surface word `cat` occupies token positions 2 and 6. -/
def c9toks : List Token :=
  [ { index := 1, word := "28", originalText := "28", lemmaStr := "28", pos := "CD",
      characterOffsetBegin := 0, characterOffsetEnd := 2, ner := "NUMBER", after := " " },
    { index := 2, word := "cat", originalText := "cat", lemmaStr := "cat", pos := "NN",
      characterOffsetBegin := 3, characterOffsetEnd := 6, ner := "O", after := " " },
    { index := 4, word := "weeks", originalText := "weeks", lemmaStr := "week", pos := "NNS",
      characterOffsetBegin := 7, characterOffsetEnd := 12, ner := "DURATION", after := " " },
    { index := 6, word := "cat", originalText := "cat", lemmaStr := "cat", pos := "NN",
      characterOffsetBegin := 13, characterOffsetEnd := 16, ner := "O", after := "" } ]

/-- C9 dependency list: only token 2 is connected to the unit. -/
def c9deps : List Dep :=
  [ { governor := 4, dependent := 2, governorGloss := "weeks", dependentGloss := "cat",
      dep := "nmod" } ]

/-- C9 token store. -/
def c9ann : Ann := Ann.ofTokens c9toks

/-- C9 sentence context. -/
def c9ctx : Ctx := { ann := c9ann, graph := buildGraph c9ann c9deps, num := "28" }

/-- C9 patterns: emit `nmod` noun siblings. -/
def c9tree : Tree :=
  { dep := [("nmod", .pdict
      [ ("enhanced", .pbool false),
        ("measurement_types", .plist ["space_between"]),
        ("pos_in", .pdict [("NN", .pnone)]) ])],
    wordOr := [] }

/-- C9: the single edge of the graph. -/
def c9edge : Edge := { a := 2, b := 4, dep := "nmod" }

/-- C3: the single (collapsed) edge of the two-verb graph. -/
def c3e : Edge := { a := 2, b := 1, dep := "nsubj" }

/-- C8: the simplified projection of `c8matchOut`, descriptor names in
ascending token order. -/
def c8simplified : Simplified :=
  { value := SimpVal.single "28", unit := some "weeks",
    quantified := [], related := [("window", ["old", "big"])] }

/-! ## Theorems -/

/-- Lookup after a dict update: the written key reads back the new value,
every other key is untouched. -/
theorem pyDictGet_pyDictSet {K V : Type} [DecidableEq K] (m : List (K × V)) (k kq : K) (v : V) :
    pyDictGet (pyDictSet m k v) kq = if kq = k then some v else pyDictGet m kq := by
  induction m with
  | nil =>
    by_cases h : kq = k
    · subst h; simp [pyDictSet, pyDictGet]
    · simp [pyDictSet, pyDictGet, h, Ne.symm h]
  | cons p ps ih =>
    by_cases h1 : p.1 = k
    · by_cases h2 : kq = k
      · subst h2; simp [pyDictSet, pyDictGet, h1]
      · have hk : ¬(k = kq) := fun hh => h2 hh.symm
        have hp : ¬(p.1 = kq) := fun hh => h2 (hh.symm.trans h1)
        simp [pyDictSet, pyDictGet, h1, h2, hk, hp]
    · by_cases h3 : p.1 = kq
      · have hk : ¬(kq = k) := fun hh => h1 (h3.trans hh)
        simp [pyDictSet, pyDictGet, h1, h3, hk]
      · simp [pyDictSet, pyDictGet, h1, h3, ih]

/-- The `index_lookup` table after folding the token loop over any prefix:
the last token with a given surface word wins; words never seen fall back to
the accumulator. -/
theorem indexLookup_foldl (base : Int) (toks : List Token) (a : Ann) (w : String) :
    pyDictGet ((toks.foldl (Ann.step base) a).indexLookup) w
      = (match (toks.filter (fun f => f.word == w)).getLast? with
         | some f => some f.index
         | none => pyDictGet a.indexLookup w) := by
  induction toks generalizing a with
  | nil => rfl
  | cons f ts ih =>
    rw [List.foldl_cons, ih]
    by_cases hw : f.word = w
    · rw [List.filter_cons_of_pos (by simp [hw]), List.getLast?_cons]
      cases hlast : (ts.filter (fun x => x.word == w)).getLast? with
      | some g => simp [hlast]
      | none =>
        simp only [hlast, Option.getD_none]
        show pyDictGet ((Ann.step base a f).indexLookup) w = some f.index
        rw [show (Ann.step base a f).indexLookup
              = pyDictSet a.indexLookup f.word f.index from rfl]
        rw [pyDictGet_pyDictSet, if_pos hw.symm]
    · rw [List.filter_cons_of_neg (by simp [hw])]
      cases hlast : (ts.filter (fun x => x.word == w)).getLast? with
      | some g => simp [hlast]
      | none =>
        simp only [hlast]
        show pyDictGet ((Ann.step base a f).indexLookup) w = pyDictGet a.indexLookup w
        rw [show (Ann.step base a f).indexLookup
              = pyDictSet a.indexLookup f.word f.index from rfl]
        rw [pyDictGet_pyDictSet, if_neg (fun hh => hw hh.symm)]

/-- `Annotations.index_lookup[w]` resolves to the index of the *last* token
whose `word` field equals `w`. -/
theorem ofTokens_indexLookup (toks : List Token) (w : String) :
    pyDictGet (Ann.ofTokens toks).indexLookup w
      = ((toks.filter (fun f => f.word == w)).getLast?).map (fun f => f.index) := by
  simp only [Ann.ofTokens]
  rw [indexLookup_foldl]
  cases h : (toks.filter (fun f => f.word == w)).getLast? <;> simp [h, pyDictGet]

/-- One step of the divergence: a search rooted at verb 1 recurses into
verb 2 with the *unchanged* visit dict (the counter update runs only after
the recursive call), so divergence of the inner call propagates. -/
theorem c3succ1 (n : Nat)
    (h : getCousin c3ctx n 2 ["nsubj", "nsubjpass", "acl"] [] = none) :
    getCousin c3ctx (n + 1) 1 ["nsubj", "nsubjpass", "acl"] [] = none := by
  have hred : getCousin c3ctx (n + 1) 1 ["nsubj", "nsubjpass", "acl"] []
      = (match (match getCousin c3ctx n 2 ["nsubj", "nsubjpass", "acl"] [] with
                | none => none
                | some (ws, vis2) =>
                    cousinLoop c3ctx
                      (fun c v => getCousin c3ctx n c ["nsubj", "nsubjpass", "acl"] v) 1
                      [("nsubjpass", c3e), ("acl", c3e)] ([] ++ ws) (visBump vis2 2)) with
         | none => none
         | some (ws2, v2) => some (pySetL ws2, v2)) := rfl
  rw [hred, h]

/-- The symmetric step rooted at verb 2. -/
theorem c3succ2 (n : Nat)
    (h : getCousin c3ctx n 1 ["nsubj", "nsubjpass", "acl"] [] = none) :
    getCousin c3ctx (n + 1) 2 ["nsubj", "nsubjpass", "acl"] [] = none := by
  have hred : getCousin c3ctx (n + 1) 2 ["nsubj", "nsubjpass", "acl"] []
      = (match (match getCousin c3ctx n 1 ["nsubj", "nsubjpass", "acl"] [] with
                | none => none
                | some (ws, vis2) =>
                    cousinLoop c3ctx
                      (fun c v => getCousin c3ctx n c ["nsubj", "nsubjpass", "acl"] v) 2
                      [("nsubjpass", c3e), ("acl", c3e)] ([] ++ ws) (visBump vis2 1)) with
         | none => none
         | some (ws2, v2) => some (pySetL ws2, v2)) := rfl
  rw [hred, h]

/-- Verb-rooted searches with the recursive label set diverge at every
fuel. -/
theorem c3aux : ∀ n, getCousin c3ctx n 1 ["nsubj", "nsubjpass", "acl"] [] = none ∧
    getCousin c3ctx n 2 ["nsubj", "nsubjpass", "acl"] [] = none := by
  intro n
  induction n with
  | zero => exact ⟨rfl, rfl⟩
  | succ n ih => exact ⟨c3succ1 n ih.2, c3succ2 n ih.1⟩

/-- The top-level search's only pair also recurses into verb 2 before any
counter update. -/
theorem c3top (n : Nat)
    (h : getCousin c3ctx n 2 ["nsubj", "nsubjpass", "acl"] [] = none) :
    getCousin c3ctx (n + 1) 1 ["nsubj"] [] = none := by
  have hred : getCousin c3ctx (n + 1) 1 ["nsubj"] []
      = (match (match getCousin c3ctx n 2 ["nsubj", "nsubjpass", "acl"] [] with
                | none => none
                | some (ws, vis2) =>
                    cousinLoop c3ctx
                      (fun c v => getCousin c3ctx n c ["nsubj", "nsubjpass", "acl"] v) 1
                      [] ([] ++ ws) (visBump vis2 2)) with
         | none => none
         | some (ws2, v2) => some (pySetL ws2, v2)) := rfl
  rw [hred, h]

/-- C1: the Result Reconciler's remove-while-iterating loop keeps an entry
whose `rawName` equals the Match's unit text.  With two related entries both
named `"weeks"` (the unit of payload `c1g`), removing the first advances the
iterator past the second, which survives into the final list — contradicting
the claim that no such entry remains for every input list and payload. -/
theorem C1_reconciler_keeps_unit_duplicate :
    reconcile c1g [c1r1, c1r2] = [c1r2] ∧
    c1r2.rawName = "weeks" ∧
    c1g.quantity.map (fun q => q.rawUnit.map (fun u => u.name)) = some (some "weeks") :=
  ⟨by decide, rfl, rfl⟩

/-- C2: the Measurement Aligner never classifies a quantity as `attached`.
For the `10m` token, `grobid.py` stores the unit's token indices as decimal
*strings* (`["1"]`) while the number's token index stays an *integer* (`1`);
Python's `in` compares them with `==`, which is `False` across the two types,
so the membership test fails even though the two index sets intersect
numerically (third conjunct) and the code falls through to
`space_between`. -/
theorem C2_attached_never_fires :
    augmentMatch c2g = AugRes.ok (some c2match) ∧
    c2match.measurement_format = "space_between" ∧
    c2unit.tokenIndices = [PyV.vstr "1"] ∧
    (c2unit.tokenIndices.map pyvStr).contains (pyvStr (PyV.vint 1)) = true :=
  ⟨by decide, rfl, by decide, by decide⟩

/-- C3: cousin search does *not* terminate on the cyclic graph of two verb
nodes linked by an allowed label.  `visited_nodes` is incremented only after
a recursive call returns, so every level of the recursion sees an empty
visit dict and recurses again: the fuel-indexed embedding returns `none`
(budget exceeded) for every finite fuel, refuting the claimed two-visit
cap. -/
theorem C3_cousin_search_diverges :
    annPos c3ctx.ann 1 = "VB" ∧ annPos c3ctx.ann 2 = "VB" ∧
    c3ctx.graph.edges = [c3e] ∧ c3e.dep = "nsubj" ∧
    ∀ fuel, getCousin c3ctx fuel 1 ["nsubj"] [] = none := by
  refine ⟨rfl, rfl, by decide, rfl, ?_⟩
  intro fuel
  cases fuel with
  | zero => rfl
  | succ n => exact c3top n (c3aux n).2

/-- C4: Engine state leaks between Matches through the cousin search's visit
dict (a mutable default argument in the source).  Processing a first Match
drives verb node 2's visit count to the cap (first conjunct); a second
Match's search that starts from that leftover state treats the verb as a
dead end and finds nothing (second conjunct), while the same search from a
fresh dict finds the subject `"sample"` (third conjunct) — so the second
Match's related-word set depends on whether the first was processed. -/
theorem C4_match_state_leak :
    getCousin c4ctx 3 1 ["amod", "xcomp"] [] = some ([], [(2, 2)]) ∧
    (getCousin c4ctx 3 4 ["nmod"] [(2, 2)]).map Prod.fst = some [] ∧
    (getCousin c4ctx 3 4 ["nmod"] []).map Prod.fst = some ["sample"] :=
  ⟨by decide, by decide, by decide⟩

/-- C5: the `uncertain` retry never runs.  `_parse_patterns` always returns
a list and the retry is guarded by `all_related == None`, which is `False`
for every list (third conjunct); on a Match whose format-specific pass
yields nothing, `_get_related` therefore returns the empty first-pass result
(first conjunct) even though a pass with format `uncertain` would find the
related word `"gestation"` (second conjunct). -/
theorem C5_uncertain_retry_never_runs :
    (getRelated c5ctx c5tree 6 c5match []).map (fun p => p.1.related) = some [] ∧
    (parsePatterns c5ctx c5tree 6 [PyV.vstr "2"] (MFormat.fstr "uncertain") []).map
        (fun p => p.1.map (fun r => r.rawName)) = some ["gestation"] ∧
    ∀ l : List Related, pyListEqNone l = false :=
  ⟨by decide, by decide, fun _ => rfl⟩

/-- C6: the `pos_not` predicate never fails.  Its test is
`not [...non-empty list...]`, which is constantly `False`, so the predicate
passes even when the sibling's POS (`NN`, first conjunct) equals the rule's
configured POS key under `pos_not` — the action fires and the sibling is
emitted, contradicting the claimed exclusion. -/
theorem C6_pos_not_never_fails :
    nodePos c5ctx.graph 3 = "NN" ∧
    checkCriteria c5ctx 5 "nmod" c6depObj [] c6edge 3 [] = some ([c6emitted], []) :=
  ⟨rfl, by decide⟩

/-- `mkMatch` never produces the `ValueError` outcome. -/
theorem mkMatch_ne_valueError (g : GrobidQ) (k : String) (q : QRec) (format unit : String)
    (unitIdx : List PyV) : mkMatch g k q format unit unitIdx ≠ AugRes.valueError := by
  intro h
  simp only [mkMatch] at h
  (repeat' split at h) <;> exact AugRes.noConfusion h

/-- `augForKey` never produces the `ValueError` outcome. -/
theorem augForKey_ne_valueError (g : GrobidQ) (k : String) :
    augForKey g k ≠ AugRes.valueError := by
  intro h
  simp only [augForKey] at h
  (repeat' split at h) <;>
    first
      | exact AugRes.noConfusion h
      | exact mkMatch_ne_valueError _ _ _ _ _ _ h

/-- With key `quantityMost` and no `quantityLeast`, any match `mkMatch`
emits carries an empty number text: the concatenation branch's guard demands
a `quantityLeast` that is absent. -/
theorem mkMatch_most_num (g : GrobidQ) (q : QRec) (format unit : String) (unitIdx : List PyV)
    (m : MatchRec) (hl : g.quantityLeast = none)
    (h : mkMatch g "quantityMost" q format unit unitIdx = AugRes.ok (some m)) : m.num = "" := by
  simp only [mkMatch] at h
  rw [hl] at h
  cases hti : q.tokenIndex with
  | none => rw [hti] at h; exact AugRes.noConfusion h
  | some ti =>
    rw [hti] at h
    injection h with h1
    injection h1 with h2
    subst h2
    rfl

/-- With key `quantityMost` and no `quantityLeast`, any match `augForKey`
emits carries an empty number text. -/
theorem augForKey_most_num (g : GrobidQ) (m : MatchRec) (hl : g.quantityLeast = none)
    (h : augForKey g "quantityMost" = AugRes.ok (some m)) : m.num = "" := by
  simp only [augForKey] at h
  rw [show grobidField g "quantityMost" = g.quantityMost from by simp [grobidField]] at h
  cases hq : g.quantityMost with
  | none => rw [hq] at h; exact AugRes.noConfusion h
  | some q =>
    simp only [hq] at h
    cases hru : q.rawUnit with
    | some ru =>
      simp only [hru] at h
      cases hti : q.tokenIndex with
      | none => simp only [hti] at h; exact AugRes.noConfusion h
      | some ti =>
        simp only [hti] at h
        exact mkMatch_most_num g q _ _ _ m hl h
    | none =>
      simp only [hru] at h
      cases hqd : g.quantified with
      | some qd =>
        simp only [hqd] at h
        cases hnn : qd.normalizedName with
        | none => simp only [hnn] at h; exact AugRes.noConfusion h
        | some nn =>
          simp only [hnn] at h
          cases hti2 : qd.tokenIndex with
          | some ti => simp only [hti2] at h; exact mkMatch_most_num g q _ _ _ m hl h
          | none => simp only [hti2] at h; exact Option.noConfusion (AugRes.ok.inj h)
      | none => simp only [hqd] at h; exact mkMatch_most_num g q _ _ _ m hl h

/-- C7 counterexample: for the interval payload `c7g0` lacking a
`quantityLeast`, the emitted number text is the empty string — in
particular it is not a concatenation `"<least> to <most>"` for any choice of
the two parts, refuting the claim's first half as stated. -/
theorem C7_interval_concat_counterexample :
    augmentMatch c7g0 = AugRes.ok (some c7m0) ∧ c7m0.num = "" ∧
    ∀ a b : String, c7m0.num ≠ a ++ " to " ++ b := by
  refine ⟨by decide, rfl, ?_⟩
  intro a b hab
  have hl : c7m0.num.length = (a ++ " to " ++ b).length := congrArg String.length hab
  rw [String.length_append, String.length_append] at hl
  have h0 : c7m0.num.length = 0 := rfl
  have h4 : (" to " : String).length = 4 := rfl
  omega

/-- C7 (amended): alignment raises the unsupported-kind error exactly when
the payload type is neither `value` nor `interval`; and for every interval
payload missing a `quantityLeast` that yields a Match, the emitted number
text is empty (the `"<least> to <most>"` branch is guarded by a condition
requiring `quantityLeast` to be present while the key selection requires it
absent, so it never fires). -/
theorem C7_interval_empty_num :
    (∀ g : GrobidQ, augmentMatch g = AugRes.valueError ↔
      g.type ≠ "value" ∧ g.type ≠ "interval") ∧
    (∀ (g : GrobidQ) (m : MatchRec), g.type = "interval" → g.quantityLeast = none →
      augmentMatch g = AugRes.ok (some m) → m.num = "") := by
  constructor
  · intro g
    constructor
    · intro h
      by_cases hv : g.type = "value"
      · exfalso
        rw [show augmentMatch g = augForKey g "quantity" from by simp [augmentMatch, hv]] at h
        exact augForKey_ne_valueError g _ h
      · by_cases hi : g.type = "interval"
        · exfalso
          by_cases hl : g.quantityLeast.isSome
          · rw [show augmentMatch g = augForKey g "quantityLeast" from by
              simp [augmentMatch, hv, hi, hl]] at h
            exact augForKey_ne_valueError g _ h
          · rw [show augmentMatch g = augForKey g "quantityMost" from by
              simp [augmentMatch, hv, hi, hl]] at h
            exact augForKey_ne_valueError g _ h
        · exact ⟨hv, hi⟩
    · intro hvi
      simp [augmentMatch, hvi.1, hvi.2]
  · intro g m ht hl h
    have hv : ¬g.type = "value" := by rw [ht]; decide
    rw [show augmentMatch g = augForKey g "quantityMost" from by
      simp [augmentMatch, hv, ht, hl]] at h
    exact augForKey_most_num g m hl h

/-- C7 witness: the amended statement instantiated at the concrete interval
payload `c7g0`, discharging every hypothesis. -/
theorem C7_interval_empty_num_witness :
    c7g0.type = "interval" ∧ c7g0.quantityLeast = none ∧ c7m0.num = "" :=
  ⟨rfl, rfl, C7_interval_empty_num.2 c7g0 c7m0 rfl rfl (by decide)⟩

/-- C8 counterexample: the engine's raw output violates ascending descriptor
order.  On the graph whose `window`-`big` edge (token 5) precedes the
`window`-`old` edge (token 3), the related word emitted for `window` carries
descriptors with token indices `[5, 3]` — descending — because
`_add_descriptors` appends in edge-scan order and no sort runs on the
emission path. -/
theorem C8_raw_descriptor_order_counterexample :
    (parsePatterns c8ctx c8tree 6 [PyV.vstr "2"] (MFormat.fstr "space_between") []).map
        (fun p => p.1.map (fun r => (r.descriptors.getD []).map (fun d => d.tokenIndex)))
      = some [[5, 3]] ∧
    ¬ List.Sorted (fun a b : Nat => a ≤ b) [5, 3] :=
  ⟨by decide, by decide⟩

/-- C8 (amended): descriptors are sorted into ascending token-index order
only in the simplified projection: `_simplify_results` sorts every
descriptor list (first conjunct: the sort it applies always yields an
ascending list), and on the counterexample match it emits `window`'s
descriptor names as `["old", "big"]` — tokens 3 then 5 (second conjunct);
the raw related-word output keeps edge-scan order. -/
theorem C8_descriptors_sorted_in_simplified :
    (∀ l : List Desc, List.Sorted descLE (sortDescriptors l)) ∧
    simplifyResults c8matchOut = some c8simplified :=
  ⟨fun l => List.sorted_insertionSort descLE l, by decide⟩

/-- C9: a sibling emitted as a related word gets its token index and
character offsets by looking its *surface word* up in `index_lookup`, where
the last-written token wins.  First conjunct: for every token list, the map
resolves a word to the index of its last occurrence.  Remaining conjuncts:
in the sentence where `cat` occupies tokens 2 and 6 and only token 2 is
linked to the unit, the matching graph node is 2, yet the emitted entry
carries token index 6 with token 6's offsets. -/
theorem C9_index_lookup_last_occurrence :
    (∀ (toks : List Token) (w : String),
        pyDictGet (Ann.ofTokens toks).indexLookup w
          = ((toks.filter (fun f => f.word == w)).getLast?).map (fun f => f.index)) ∧
    getConnectedS c9ctx c9edge "4" = some 2 ∧
    (parsePatterns c9ctx c9tree 6 [PyV.vstr "4"] (MFormat.fstr "space_between") []).map
        (fun p => p.1.map (fun r => (r.rawName, r.tokenIndex, r.offsetStart, r.offsetEnd)))
      = some [("cat", 6, 13, 16)] ∧
    pyDictGet c9ctx.ann.indexLookup "cat" = some 6 :=
  ⟨ofTokens_indexLookup, by decide, by decide, by decide⟩

/-- C10: for content shorter than 5 characters, `extract` returns `None`
(not an empty list) after at most opening the output file: the effect trace
contains no annotation-service call, no measurement-service call and no
write, for every downstream pipeline and endpoint. -/
theorem C10_short_input_guard :
    ∀ (rest : String → List Effect × Option (List MatchRec)) (ep content : String)
      (out : Option String), content.length < 5 →
      (extract rest ep content out).1 = none ∧
      ∀ e ∈ (extract rest ep content out).2,
        (∀ s, e ≠ Effect.corenlpAnnotate s) ∧ (∀ s, e ≠ Effect.grobidCall s) ∧
        (∀ s, e ≠ Effect.fileWrite s) := by
  intro rest ep content out h
  refine ⟨by simp [extract, h], ?_⟩
  intro e he
  simp only [extract, if_pos h] at he
  cases out with
  | none => simp at he
  | some p =>
    simp at he
    subst he
    refine ⟨fun s hs => ?_, fun s hs => ?_, fun s hs => ?_⟩ <;> exact Effect.noConfusion hs

/-- C10 witness: the guard instantiated at the 3-character input `"abc"`
with an output file requested. -/
theorem C10_short_input_guard_witness :
    (extract (fun _ => ([], none)) "http://localhost:9000" "abc" (some "out")).1 = none :=
  (C10_short_input_guard (fun _ => ([], none)) "http://localhost:9000" "abc" (some "out")
    (by decide)).1

end Marve
